import Mathlib

/-!
Shallow embedding of the HwMonitor dashboard engine (src/src/script.js).
The numeric domain of the JavaScript code is modelled by the rationals;
JavaScript rounding helpers are modelled explicitly.
-/

namespace HwMonitor

/-- Severity tier produced by the color-coding CSS classes
good / warning / danger in script.js. -/
inductive Tier where
  | good
  | warning
  | danger
deriving DecidableEq, Repr

/-- Math.round: round half toward positive infinity (script.js uses it
for cpu, memory, temperature and fps readouts). -/
def jsRound (q : ℚ) : ℤ := ⌊q + 1/2⌋

/-- applyColorCoding (script.js lines 211-221): removes all tier classes,
then adds danger when value is at least dangerThreshold, warning when it is
at least warningThreshold, good otherwise.  Standard direction only. -/
def applyColorCoding (value warningThreshold dangerThreshold : ℚ) : Tier :=
  if value ≥ dangerThreshold then Tier.danger
  else if value ≥ warningThreshold then Tier.warning
  else Tier.good

/-- Number.prototype.toFixed with one fraction digit: the integer n
minimizing the distance of n / 10 to the argument, ties resolved to the
larger n, rendered with a decimal point. -/
def jsToFixed1 (q : ℚ) : String :=
  let n : ℤ := ⌊q * 10 + 1/2⌋
  if n < 0 then
    "-" ++ toString ((-n) / 10) ++ "." ++ toString ((-n) % 10)
  else
    toString (n / 10) ++ "." ++ toString (n % 10)

/-- Number.prototype.toFixed with zero fraction digits: nearest integer,
ties to the larger one, rendered without a decimal point. -/
def jsToFixed0 (q : ℚ) : String :=
  toString (⌊q + 1/2⌋)

/-- formatBytes (script.js lines 223-230): gigabytes with one decimal when
bytes / 2^30 is at least 1, otherwise megabytes rounded to a whole
number. -/
def formatBytes (bytes : ℚ) : String :=
  let gb := bytes / (1024 * 1024 * 1024)
  if gb ≥ 1 then
    jsToFixed1 gb ++ " GB"
  else
    let mb := bytes / (1024 * 1024)
    jsToFixed0 mb ++ " MB"

/-- maxDataPoints (script.js line 283): capacity of every series buffer. -/
def maxDataPoints : ℕ := 50

/-- The three rolling series buffers kept in this.chartData
(script.js lines 278-282), oldest first. -/
structure ChartData where
  cpu : List ℚ
  memory : List ℚ
  temperature : List ℚ
deriving DecidableEq, Repr

/-- initializeChart (script.js lines 278-282) starts all three series
empty. -/
def initialChart : ChartData := ⟨[], [], []⟩

/-- The JavaScript expression (temperature || 0) applied to a possibly
null temperature: null becomes 0, a number is kept (0 stays 0). -/
def tempOrZero : Option ℚ → ℚ
  | none => 0
  | some t => t

/-- updateChartData (script.js lines 303-318): push one point onto each
series, then, when the cpu series exceeds maxDataPoints, shift (drop the
oldest entry of) all three series. -/
def updateChartData (d : ChartData) (cpuUsage memoryUsage : ℚ)
    (temperature : Option ℚ) : ChartData :=
  let cpu := d.cpu ++ [cpuUsage]
  let memory := d.memory ++ [memoryUsage]
  let temp := d.temperature ++ [tempOrZero temperature]
  if cpu.length > maxDataPoints then
    ⟨cpu.drop 1, memory.drop 1, temp.drop 1⟩
  else
    ⟨cpu, memory, temp⟩

/-- The action of updateChartData on one series in isolation: append the
new point, and drop the oldest entry when the capacity is exceeded.  In
script.js all three series always have the cpu length, so the shared
length test specializes to this. -/
def pushBuffer (l : List ℚ) (v : ℚ) : List ℚ :=
  let l2 := l ++ [v]
  if l2.length > maxDataPoints then l2.drop 1 else l2

/-- Feeding a whole sequence of points into an initially empty rolling
buffer. -/
def pushAll (xs : List ℚ) : List ℚ := xs.foldl pushBuffer []

/-- Replaying a sequence of successful poll ticks against the chart
state, starting from anywhere. -/
def applyUpdates (d : ChartData) (us : List (ℚ × ℚ × Option ℚ)) : ChartData :=
  us.foldl (fun d u => updateChartData d u.1 u.2.1 u.2.2) d

/-- System snapshot returned by the get_system_info provider call. -/
structure SystemInfo where
  cpu_usage : ℚ
  memory_usage : ℚ
  used_memory : ℚ
  total_memory : ℚ
  uptime : ℚ
deriving DecidableEq, Repr

/-- Temperature snapshot returned by the get_cpu_temperature provider
call; none models a null temperature field. -/
structure TempInfo where
  temperature : Option ℚ
deriving DecidableEq, Repr

/-- The DOM surface written by updateSystemInfo: readout texts, the tier
class currently on each readout (none when all tier classes were
removed), the memory bar width, and the chart state. -/
structure DashState where
  cpuText : String
  cpuTier : Option Tier
  memText : String
  memTier : Option Tier
  tempText : String
  tempTier : Option Tier
  uptimeText : String
  usedMemText : String
  totalMemText : String
  memoryFillWidth : String
  chart : ChartData
deriving DecidableEq, Repr

/-- pollIntervalMs: startSystemMonitoring (script.js line 112) runs
updateSystemInfo once, then on a fixed 2000 ms interval. -/
def pollIntervalMs : ℕ := 2000

/-- One online poll tick of updateSystemInfo (script.js lines 137-206).
The argument r is the joined outcome of the two concurrent provider
requests issued through Promise.all: ok carries both snapshots, error
models either request rejecting (Promise.all rejects as soon as one
input rejects, and the catch block runs).  The second component lists
the delays of any timers registered during the call: updateSystemInfo
registers none, in the success branch and in the catch branch alike. -/
def updateSystemInfoRun (s : DashState)
    (r : Except Unit (SystemInfo × TempInfo)) : DashState × List ℕ :=
  match r with
  | Except.error _ =>
    ({ s with
        cpuText := "--"
        memText := "--"
        tempText := "--"
        uptimeText := "--"
        usedMemText := "--"
        totalMemText := "--"
        memoryFillWidth := "0%" }, [])
  | Except.ok (sys, t) =>
    let cpuUsage : ℤ := jsRound sys.cpu_usage
    let memoryUsage : ℤ := jsRound sys.memory_usage
    let tempText : String :=
      match t.temperature with
      | some c => toString (jsRound c)
      | none => "--"
    let tempTier : Option Tier :=
      match t.temperature with
      | some c => some (applyColorCoding ((jsRound c : ℤ) : ℚ) 70 80)
      | none => none
    ({ cpuText := toString cpuUsage
       cpuTier := some (applyColorCoding (cpuUsage : ℚ) 70 85)
       memText := toString memoryUsage
       memTier := some (applyColorCoding (memoryUsage : ℚ) 75 90)
       tempText := tempText
       tempTier := tempTier
       uptimeText := toString ⌊sys.uptime / 3600⌋
       usedMemText := formatBytes sys.used_memory
       totalMemText := formatBytes sys.total_memory
       memoryFillWidth := toString memoryUsage ++ "%"
       chart := updateChartData s.chart (cpuUsage : ℚ) (memoryUsage : ℚ)
         t.temperature }, [])

/-- The state after one online poll tick, dropping the (always empty)
timer-registration list. -/
def updateSystemInfo (s : DashState)
    (r : Except Unit (SystemInfo × TempInfo)) : DashState :=
  (updateSystemInfoRun s r).1

/-- Frame-rate monitor state (initializeFPSCounter, script.js
lines 248-253). -/
structure FPSState where
  fps : ℤ
  frames : ℕ
  lastTime : ℚ
deriving DecidableEq, Repr

/-- One animation-frame callback of updateFPS (script.js lines 255-271)
at wall-clock time now.  When at least 1000 ms elapsed, the fps readout
is recomputed and re-classified through applyColorCoding with
thresholds 30 and 55; the second component reports the published
readout (fps value and tier class), none when no measurement was due. -/
def updateFPSTick (st : FPSState) (now : ℚ) : FPSState × Option (ℤ × Tier) :=
  let frames := st.frames + 1
  if now ≥ st.lastTime + 1000 then
    let fps : ℤ := jsRound ((frames : ℚ) * 1000 / (now - st.lastTime))
    (⟨fps, 0, now⟩, some (fps, applyColorCoding (fps : ℚ) 30 55))
  else
    (⟨st.fps, frames, st.lastTime⟩, none)

/-- FPS color coding of japan-script.js (lines 55-62), the other
frame-rate widget in the repository: at least 50 is good, at least 30 is
medium, below is bad — the inverted direction, where low fps is bad. -/
def japanFpsClass (fps : ℤ) : Tier :=
  if fps ≥ 50 then Tier.good
  else if fps ≥ 30 then Tier.warning
  else Tier.danger

/-- The gate of drawChart (script.js line 344): the temperature series
participates in the frame only when some retained sample is strictly
positive. -/
def temperatureGate (d : ChartData) : Bool :=
  d.temperature.any (fun t => decide (0 < t))

/-- tempScaled (script.js line 346): temperature samples rescaled from
the 0-100 celsius domain onto the shared 0-100 axis. -/
def tempScaled (d : ChartData) : List ℚ :=
  d.temperature.map (fun t => t / 100 * 100)

/-- Whether drawLine (script.js lines 391-420) strokes anything for a
series: it returns immediately when the series has fewer than two
points. -/
def drawLineStrokes (data : List ℚ) : Bool :=
  decide (2 ≤ data.length)

/-- Whether the temperature polyline is actually stroked in one frame of
drawChart: the positivity gate must pass, and drawLine must not skip the
scaled series. -/
def tempPolylineDrawn (d : ChartData) : Bool :=
  temperatureGate d && drawLineStrokes (tempScaled d)

/-- The x pixel coordinate of buffer index i in drawLine (script.js
line 401). -/
def drawLineX (padding chartWidth : ℚ) (i : ℕ) : ℚ :=
  padding + ((i : ℚ) / ((maxDataPoints : ℚ) - 1)) * chartWidth

/-- The y pixel coordinate of sample value v in drawLine (script.js
line 402). -/
def drawLineY (padding chartHeight v : ℚ) : ℚ :=
  padding + chartHeight - (v / 100) * chartHeight

/-- The polyline vertices produced by drawLine: empty when the series is
skipped, otherwise one vertex per buffer index. -/
def drawLinePoints (padding chartWidth chartHeight : ℚ)
    (data : List ℚ) : List (ℚ × ℚ) :=
  if data.length < 2 then []
  else (List.range data.length).map
    (fun i => (drawLineX padding chartWidth i,
               drawLineY padding chartHeight (data.getD i 0)))

/-- The current-value overlay of drawCurrentValues (script.js
lines 447-467): nothing is rendered when the cpu series is empty;
otherwise the overlay reports whether the temperature text line is shown
and the height of the translucent background panel (38 for three lines,
26 for two).  Both are decided by the newest temperature sample
(defaulted to 0 through the JavaScript expression last || 0). -/
def drawCurrentValues (d : ChartData) : Option (Bool × ℕ) :=
  if d.cpu.length = 0 then none
  else
    let currentTemp : ℚ := tempOrZero d.temperature.getLast?
    some (decide (0 < currentTemp), if 0 < currentTemp then 38 else 26)

/-- A concrete dashboard state used to exercise the poll-tick theorems on
explicit inputs. -/
def sampleState : DashState :=
  ⟨"0", none, "0", none, "0", none, "0", "0", "0", "0%", initialChart⟩

/-- A concrete system snapshot used to exercise the poll-tick theorems on
explicit inputs. -/
def sampleSystemInfo : SystemInfo := ⟨40, 60, 52428800, 1610612736, 7200⟩

/-! ## Helper lemmas -/

/-- Folding pushBuffer keeps exactly the trailing window of capacity
maxDataPoints. -/
lemma foldl_pushBuffer : ∀ (xs l : List ℚ), l.length ≤ maxDataPoints →
    xs.foldl pushBuffer l = (l ++ xs).drop (l.length + xs.length - maxDataPoints)
  | [], l, h => by
    simp [Nat.sub_eq_zero_of_le h]
  | x :: xs, l, h => by
    rw [List.foldl_cons]
    by_cases hc : l.length + 1 > maxDataPoints
    · have hl : l.length = maxDataPoints := by omega
      have hpush : pushBuffer l x = (l ++ [x]).drop 1 := by
        unfold pushBuffer
        simp only [List.length_append, List.length_cons, List.length_nil]
        rw [if_pos (by omega)]
      rw [hpush]
      have hlen : ((l ++ [x]).drop 1).length ≤ maxDataPoints := by
        simp [hl]
      rw [foldl_pushBuffer xs _ hlen]
      have h1 : (1 : ℕ) ≤ (l ++ [x]).length := by simp
      rw [← List.drop_append_of_le_length h1, List.drop_drop]
      have hlen2 : ((l ++ [x]).drop 1).length = maxDataPoints := by simp [hl]
      rw [hlen2]
      have : l ++ [x] ++ xs = l ++ x :: xs := by simp
      rw [this]
      congr 1
      simp [hl]
      omega
    · have hpush : pushBuffer l x = l ++ [x] := by
        unfold pushBuffer
        simp only [List.length_append, List.length_cons, List.length_nil]
        rw [if_neg (by omega)]
      rw [hpush]
      rw [foldl_pushBuffer xs _ (by simp; omega)]
      have : l ++ [x] ++ xs = l ++ x :: xs := by simp
      rw [this]
      congr 1
      simp
      omega

/-- The rolling push always leaves the newest value at the end of the
buffer. -/
lemma getLast?_pushBuffer (l : List ℚ) (v : ℚ) :
    (pushBuffer l v).getLast? = some v := by
  unfold pushBuffer
  by_cases hc : l.length + 1 > maxDataPoints
  · rw [if_pos (by simp; omega)]
    have hlen : (1 : ℕ) ≤ l.length := by
      unfold maxDataPoints at hc
      omega
    rw [List.drop_append_of_le_length (by simpa using hlen)]
    simp
  · rw [if_neg (by simp; omega)]
    simp

/-- One updateChartData call preserves the lockstep invariant of the
three series. -/
lemma updateChartData_invariant (d : ChartData) (c m : ℚ) (t : Option ℚ)
    (h1 : d.cpu.length = d.memory.length)
    (h2 : d.memory.length = d.temperature.length)
    (h3 : d.cpu.length ≤ maxDataPoints) :
    ((updateChartData d c m t).cpu.length = (updateChartData d c m t).memory.length ∧
     (updateChartData d c m t).memory.length = (updateChartData d c m t).temperature.length) ∧
    (updateChartData d c m t).cpu.length ≤ maxDataPoints := by
  unfold updateChartData
  by_cases hc : d.cpu.length + 1 > maxDataPoints
  · rw [if_pos (by simp; omega)]
    simp
    omega
  · rw [if_neg (by simp; omega)]
    simp
    omega

/-! ## Claim theorems -/

/-- C3: For any sequence of more than 50 pushes into a rolling series
buffer, the buffer holds exactly the most recent 50 pushed values in
their original push order and has length 50; for at most 50 pushes it
holds all pushed values in order. -/
theorem rolling_buffer_window (xs : List ℚ) :
    (50 < xs.length →
      pushAll xs = xs.drop (xs.length - 50) ∧ (pushAll xs).length = 50) ∧
    (xs.length ≤ 50 → pushAll xs = xs) := by
  have h := foldl_pushBuffer xs [] (by simp)
  simp only [List.nil_append, List.length_nil, Nat.zero_add] at h
  rw [show HwMonitor.maxDataPoints = 50 from rfl] at h
  have hp : pushAll xs = xs.drop (xs.length - 50) := h
  constructor
  · intro hlen
    refine ⟨hp, ?_⟩
    rw [hp, List.length_drop]
    omega
  · intro hlen
    rw [hp, Nat.sub_eq_zero_of_le hlen, List.drop_zero]

/-- Witness for C3 at a concrete overflowing push sequence of length 51. -/
theorem rolling_buffer_window_witness :
    50 < (List.replicate 51 (7 : ℚ)).length ∧
    (pushAll (List.replicate 51 (7 : ℚ)) =
        (List.replicate 51 (7 : ℚ)).drop ((List.replicate 51 (7 : ℚ)).length - 50) ∧
      (pushAll (List.replicate 51 (7 : ℚ))).length = 50) :=
  ⟨by simp, (rolling_buffer_window (List.replicate 51 (7 : ℚ))).1 (by simp)⟩

/-- C10: Starting from the empty chart of initializeChart, after any
sequence of successful poll ticks the three series have exactly equal
lengths, each at most 50. -/
theorem chart_series_lockstep (us : List (ℚ × ℚ × Option ℚ)) :
    (applyUpdates initialChart us).cpu.length =
      (applyUpdates initialChart us).memory.length ∧
    (applyUpdates initialChart us).memory.length =
      (applyUpdates initialChart us).temperature.length ∧
    (applyUpdates initialChart us).cpu.length ≤ 50 := by
  suffices h : ∀ (vs : List (ℚ × ℚ × Option ℚ)) (d : ChartData),
      d.cpu.length = d.memory.length → d.memory.length = d.temperature.length →
      d.cpu.length ≤ maxDataPoints →
      (applyUpdates d vs).cpu.length = (applyUpdates d vs).memory.length ∧
      (applyUpdates d vs).memory.length = (applyUpdates d vs).temperature.length ∧
      (applyUpdates d vs).cpu.length ≤ maxDataPoints by
    exact h us initialChart rfl rfl (by simp [initialChart, maxDataPoints])
  intro vs
  induction vs with
  | nil => intro d h1 h2 h3; exact ⟨h1, h2, h3⟩
  | cons u vs ih =>
    intro d h1 h2 h3
    have step := updateChartData_invariant d u.1 u.2.1 u.2.2 h1 h2 h3
    exact ih (updateChartData d u.1 u.2.1 u.2.2) step.1.1 step.1.2 step.2

/-- C7: The standard-direction classifier is exactly the three-way split
(Danger iff the value is at least dangerAt, Warning iff it is between
warnAt and dangerAt, Good iff it is below warnAt), and the poll tick
applies it with cutoffs 70/85 for CPU, 75/90 for memory and 70/80 for
temperature. -/
theorem classifier_characterization :
    (∀ v w d : ℚ, w ≤ d →
      ((applyColorCoding v w d = Tier.danger ↔ d ≤ v) ∧
       (applyColorCoding v w d = Tier.warning ↔ w ≤ v ∧ v < d) ∧
       (applyColorCoding v w d = Tier.good ↔ v < w))) ∧
    (∀ (s : DashState) (sys : SystemInfo) (t : TempInfo),
      (updateSystemInfo s (Except.ok (sys, t))).cpuTier =
        some (applyColorCoding ((jsRound sys.cpu_usage : ℤ) : ℚ) 70 85) ∧
      (updateSystemInfo s (Except.ok (sys, t))).memTier =
        some (applyColorCoding ((jsRound sys.memory_usage : ℤ) : ℚ) 75 90) ∧
      ∀ c : ℚ, t.temperature = some c →
        (updateSystemInfo s (Except.ok (sys, t))).tempTier =
          some (applyColorCoding ((jsRound c : ℤ) : ℚ) 70 80)) := by
  constructor
  · intro v w d hwd
    unfold applyColorCoding
    split_ifs with h1 h2
    · refine ⟨by simp; linarith, ?_, ?_⟩
      · simp only [reduceCtorEq, false_iff]
        intro hcon
        linarith [hcon.2]
      · simp only [reduceCtorEq, false_iff]
        intro hcon
        linarith
    · refine ⟨?_, by simp; exact ⟨h2, by linarith⟩, ?_⟩
      · simp only [reduceCtorEq, false_iff]
        intro hcon
        linarith
      · simp only [reduceCtorEq, false_iff]
        intro hcon
        linarith
    · refine ⟨?_, ?_, by simp; linarith⟩
      · simp only [reduceCtorEq, false_iff]
        intro hcon
        linarith
      · simp only [reduceCtorEq, false_iff]
        intro hcon
        linarith [hcon.1]
  · intro s sys t
    refine ⟨rfl, rfl, ?_⟩
    intro c hc
    simp [updateSystemInfo, updateSystemInfoRun, hc]

/-- Witness for C7 at value 90 with the CPU cutoffs 70/85. -/
theorem classifier_characterization_witness :
    (70 : ℚ) ≤ 85 ∧ applyColorCoding 90 70 85 = Tier.danger :=
  ⟨by norm_num,
    ((classifier_characterization.1 90 70 85 (by norm_num)).1).mpr (by norm_num)⟩

/-- C2: When the joined pair of concurrent provider requests rejects,
the poll tick publishes no partial update: the CPU, memory, temperature
and uptime readouts all show the placeholder, the chart state (and so
every series buffer) is unchanged, the tick registers no timer of its
own, and the only rescheduling is the regular 2000 ms interval. -/
theorem failed_tick_no_partial_update (s : DashState) (e : Unit) :
    (updateSystemInfoRun s (Except.error e)).1.cpuText = "--" ∧
    (updateSystemInfoRun s (Except.error e)).1.memText = "--" ∧
    (updateSystemInfoRun s (Except.error e)).1.tempText = "--" ∧
    (updateSystemInfoRun s (Except.error e)).1.uptimeText = "--" ∧
    (updateSystemInfoRun s (Except.error e)).1.chart = s.chart ∧
    (updateSystemInfoRun s (Except.error e)).2 = [] ∧
    pollIntervalMs = 2000 :=
  ⟨rfl, rfl, rfl, rfl, rfl, rfl, rfl⟩

/-- C4: On a successful poll tick whose temperature snapshot is null,
the temperature readout shows the placeholder, every tier class is
removed from it, and the sentinel 0 is still pushed onto the temperature
series buffer following the usual FIFO discipline. -/
theorem absent_temperature_tick (s : DashState) (sys : SystemInfo)
    (h : s.chart.cpu.length = s.chart.temperature.length) :
    (updateSystemInfo s (Except.ok (sys, ⟨none⟩))).tempText = "--" ∧
    (updateSystemInfo s (Except.ok (sys, ⟨none⟩))).tempTier = none ∧
    (updateSystemInfo s (Except.ok (sys, ⟨none⟩))).chart.temperature =
      pushBuffer s.chart.temperature 0 ∧
    (updateSystemInfo s (Except.ok (sys, ⟨none⟩))).chart.temperature.getLast? =
      some 0 := by
  have h3 : (updateSystemInfo s (Except.ok (sys, ⟨none⟩))).chart.temperature =
      pushBuffer s.chart.temperature 0 := by
    show (updateChartData s.chart _ _ none).temperature = _
    unfold updateChartData pushBuffer tempOrZero
    by_cases hc : s.chart.cpu.length + 1 > maxDataPoints
    · rw [if_pos (by simp; omega), if_pos (by simp; omega)]
    · rw [if_neg (by simp; omega), if_neg (by simp; omega)]
  exact ⟨rfl, rfl, h3, by rw [h3]; exact getLast?_pushBuffer _ _⟩

/-- Witness for C4 at the concrete sample state and snapshot. -/
theorem absent_temperature_tick_witness :
    sampleState.chart.cpu.length = sampleState.chart.temperature.length ∧
    ((updateSystemInfo sampleState (Except.ok (sampleSystemInfo, ⟨none⟩))).tempText = "--" ∧
     (updateSystemInfo sampleState (Except.ok (sampleSystemInfo, ⟨none⟩))).tempTier = none ∧
     (updateSystemInfo sampleState (Except.ok (sampleSystemInfo, ⟨none⟩))).chart.temperature =
       pushBuffer sampleState.chart.temperature 0 ∧
     (updateSystemInfo sampleState (Except.ok (sampleSystemInfo, ⟨none⟩))).chart.temperature.getLast? =
       some 0) :=
  ⟨rfl, absent_temperature_tick sampleState sampleSystemInfo rfl⟩

/-- C9: formatBytes uses binary units with a 1 GiB threshold: the two
documented sample values format as 1.5 GB and 50 MB, inputs of at least
2 to the 30th bytes take the GB branch with one decimal, and smaller
inputs take the MB branch rounded to a whole number. -/
theorem formatBytes_binary_units :
    formatBytes 1610612736 = "1.5 GB" ∧
    formatBytes 52428800 = "50 MB" ∧
    (∀ b : ℚ, (2 : ℚ)^30 ≤ b →
      formatBytes b = jsToFixed1 (b / 2^30) ++ " GB") ∧
    (∀ b : ℚ, b < (2 : ℚ)^30 →
      formatBytes b = jsToFixed0 (b / 2^20) ++ " MB") := by
  refine ⟨?_, ?_, ?_, ?_⟩
  · unfold formatBytes jsToFixed1
    norm_num
    decide
  · unfold formatBytes jsToFixed0
    norm_num
    decide
  · intro b hb
    unfold formatBytes
    rw [if_pos]
    · norm_num
    · rw [ge_iff_le, one_le_div (by norm_num : (0 : ℚ) < 1024 * 1024 * 1024)]
      calc (1024 * 1024 * 1024 : ℚ) = 2^30 := by norm_num
        _ ≤ b := hb
  · intro b hb
    unfold formatBytes
    rw [if_neg]
    · norm_num
    · rw [ge_iff_le, one_le_div (by norm_num : (0 : ℚ) < 1024 * 1024 * 1024)]
      push_neg
      calc b < 2^30 := hb
        _ = (1024 * 1024 * 1024 : ℚ) := by norm_num

/-- Witness for C9 on the GB branch at 2 GiB and the MB branch at
1 MiB. -/
theorem formatBytes_binary_units_witness :
    (2 : ℚ)^30 ≤ 2^31 ∧
    formatBytes (2^31) = jsToFixed1 (2^31 / 2^30) ++ " GB" ∧
    (1048576 : ℚ) < 2^30 ∧
    formatBytes 1048576 = jsToFixed0 (1048576 / 2^20) ++ " MB" :=
  ⟨by norm_num,
    formatBytes_binary_units.2.2.1 (2^31) (by norm_num),
    by norm_num,
    formatBytes_binary_units.2.2.2 1048576 (by norm_num)⟩

/-- C1: The claim says the fps readout is classified with the inverted
direction (below 30 Danger, 30 to below 55 Warning, at least 55 Good).
The code instead feeds the fps value through the standard-direction
applyColorCoding with thresholds 30 and 55, so a measurement of 60 fps
(60 frames counted over exactly 1000 ms) is published with the danger
tier where the claim requires Good; the inverted classifier of
japan-script.js rates the same 60 fps as good, matching the claimed
intent. -/
theorem fps_standard_direction_bug :
    (updateFPSTick ⟨0, 59, 0⟩ 1000).2 = some (60, Tier.danger) ∧
    Tier.danger ≠ Tier.good ∧
    japanFpsClass 60 = Tier.good := by
  refine ⟨?_, by decide, by decide⟩
  unfold updateFPSTick jsRound applyColorCoding
  norm_num

/-- C5 counterexample: with the single retained temperature sample 50
the positivity gate passes, yet the polyline is not drawn because
drawLine skips every series with fewer than two points — so drawn if and
only if some retained sample is positive fails. -/
theorem temp_polyline_gate_counterexample :
    temperatureGate ⟨[50], [50], [50]⟩ = true ∧
    (∃ t ∈ (ChartData.mk [50] [50] [50]).temperature, 0 < t) ∧
    tempPolylineDrawn ⟨[50], [50], [50]⟩ = false := by
  refine ⟨?_, ?_, ?_⟩
  · unfold temperatureGate
    norm_num
  · exact ⟨50, by simp, by norm_num⟩
  · unfold tempPolylineDrawn temperatureGate tempScaled drawLineStrokes
    simp

/-- C5 amended: the temperature polyline is drawn if and only if some
retained temperature sample is strictly positive and the buffer holds at
least two samples (the window-level positivity gate combined with the
two-point rule that drawLine applies to every series). -/
theorem temp_polyline_gate_amended (d : ChartData) :
    tempPolylineDrawn d = true ↔
      ((∃ t ∈ d.temperature, 0 < t) ∧ 2 ≤ d.temperature.length) := by
  unfold tempPolylineDrawn temperatureGate tempScaled drawLineStrokes
  simp [List.any_eq_true]

/-- C6 counterexample: with retained temperature samples 50 then 0 (an
earlier positive reading followed by an absent one) the window-level
polyline gate passes and the temperature polyline is drawn, yet the
overlay omits its temperature line and keeps the smaller two-line
panel — the overlay is gated by the newest sample only, not by the
polyline gate. -/
theorem overlay_gate_counterexample :
    temperatureGate ⟨[10, 20], [10, 20], [50, 0]⟩ = true ∧
    tempPolylineDrawn ⟨[10, 20], [10, 20], [50, 0]⟩ = true ∧
    drawCurrentValues ⟨[10, 20], [10, 20], [50, 0]⟩ = some (false, 26) := by
  refine ⟨?_, ?_, ?_⟩
  · unfold temperatureGate
    norm_num
  · unfold tempPolylineDrawn temperatureGate tempScaled drawLineStrokes
    norm_num
  · unfold drawCurrentValues tempOrZero
    norm_num

/-- C6 amended: whenever the cpu series is nonempty the overlay is
rendered, and it shows the temperature text line with the enlarged
38-unit three-line panel exactly when the newest retained temperature
sample (0 when the buffer is empty) is strictly positive; otherwise it
shows two lines with the smaller 26-unit panel — a per-tick gate on the
last sample rather than the window-level polyline gate. -/
theorem overlay_last_sample_gate (d : ChartData) (h : d.cpu ≠ []) :
    (0 < tempOrZero d.temperature.getLast? →
      drawCurrentValues d = some (true, 38)) ∧
    (tempOrZero d.temperature.getLast? ≤ 0 →
      drawCurrentValues d = some (false, 26)) := by
  have hne : ¬ d.cpu.length = 0 := by
    simpa [List.length_eq_zero] using h
  constructor
  · intro hpos
    unfold drawCurrentValues
    rw [if_neg hne]
    simp [hpos, decide_eq_true_eq, if_pos hpos]
  · intro hle
    have hnpos : ¬ (0 : ℚ) < tempOrZero d.temperature.getLast? := by linarith
    unfold drawCurrentValues
    rw [if_neg hne]
    simp [hnpos]

/-- Witness for C6 (amended) at the concrete chart whose newest
temperature sample is 0. -/
theorem overlay_last_sample_gate_witness :
    (ChartData.mk [10, 20] [10, 20] [50, 0]).cpu ≠ [] ∧
    tempOrZero (ChartData.mk [10, 20] [10, 20] [50, 0]).temperature.getLast? ≤ 0 ∧
    drawCurrentValues ⟨[10, 20], [10, 20], [50, 0]⟩ = some (false, 26) :=
  ⟨by simp,
    by norm_num [tempOrZero],
    (overlay_last_sample_gate ⟨[10, 20], [10, 20], [50, 0]⟩ (by simp)).2
      (by norm_num [tempOrZero])⟩

/-- C8: For a series with at least two points, drawLine maps buffer
index i to the x coordinate padding plus i over 49 (capacity minus one)
across the drawable width, and maps value v to the inverted y coordinate
(value 0 on the bottom edge of the drawable area, value 100 on the top),
so the y coordinate is strictly decreasing in the sample value. -/
theorem drawLine_coordinate_mapping (padding chartWidth chartHeight : ℚ)
    (data : List ℚ) (hh : 0 < chartHeight) (hlen : 2 ≤ data.length) :
    (∀ i, i < data.length →
      (drawLinePoints padding chartWidth chartHeight data)[i]? =
        some (padding + ((i : ℚ) / 49) * chartWidth,
              padding + chartHeight - (data.getD i 0 / 100) * chartHeight)) ∧
    (∀ v₁ v₂ : ℚ, v₁ < v₂ →
      drawLineY padding chartHeight v₂ < drawLineY padding chartHeight v₁) ∧
    drawLineY padding chartHeight 0 = padding + chartHeight ∧
    drawLineY padding chartHeight 100 = padding := by
  refine ⟨?_, ?_, ?_, ?_⟩
  · intro i hi
    unfold drawLinePoints
    rw [if_neg (by omega)]
    rw [List.getElem?_map, List.getElem?_range hi]
    unfold drawLineX drawLineY maxDataPoints
    norm_num
  · intro v₁ v₂ hv
    unfold drawLineY
    have hmul : v₁ / 100 * chartHeight < v₂ / 100 * chartHeight :=
      mul_lt_mul_of_pos_right (by linarith) hh
    linarith
  · unfold drawLineY
    ring
  · unfold drawLineY
    ring

/-- Witness for C8 at the two-point series 10, 90 inside a 470 by 170
drawable area with padding 15. -/
theorem drawLine_coordinate_mapping_witness :
    (0 : ℚ) < 170 ∧
    2 ≤ ([(10 : ℚ), 90]).length ∧
    drawLineY 15 170 90 < drawLineY 15 170 10 :=
  ⟨by norm_num, by simp,
    (drawLine_coordinate_mapping 15 470 170 [10, 90] (by norm_num)
        (by simp)).2.1 10 90 (by norm_num)⟩

end HwMonitor
